import Mathlib

/-!
Verification model of the asynchronous job coordinator in the
CavemanAnalyzer component (src/unnamed/part_001, second component,
lines 274-833). The component submits an image to a webhook with a
bounded retry wrapper (makeRequest), classifies the response, and on an
accepted-but-not-ready response starts a setInterval polling loop with a
setTimeout deadline (startPollingForVideo). Progress display is a pure
function of elapsed seconds (getProgress, getProcessingMessage,
getEstimatedTimeRemaining).

React semantics that the model makes explicit: useState setters mutate a
component-level store, while the function closures created at a given
render capture the store values of that render. startPollingForVideo is
a useCallback closure, so the interval callback and the deadline
callback read the captured requestId and isProcessing bindings, not the
live store. The model records those captured values in a Captured
record attached to each timer.
-/

/-- Shape of the webhook response body (interface AnalysisResponse,
part_001 lines 281-288; processing_status and created_at are never read
by the component and are omitted). -/
structure AnalysisResponse where
  status : String
  video_url : Option String
  message : Option String
  request_id : Option String
deriving DecidableEq

/-- Outcome of one fetch call: the fetch promise rejects (network
error), the response is not ok (non-2xx), or an ok response with a
parsed JSON body. -/
inductive FetchOutcome where
  | netFail
  | httpFail (status : Nat)
  | ok (r : AnalysisResponse)
deriving DecidableEq

/-- Whitespace recognizer backing the model of JS
String.prototype.trim (the payloads of interest only ever involve
spaces, tabs and line breaks). -/
def jsWhitespace (c : Char) : Bool :=
  c = ' ' || c = '\t' || c = '\n' || c = '\r'

/-- Executable model of JS String.prototype.trim: drop whitespace from
both ends. -/
def jsTrim (s : String) : String :=
  ⟨((s.data.dropWhile jsWhitespace).reverse.dropWhile jsWhitespace).reverse⟩

/-- Executable model of JS String.prototype.startsWith. -/
def jsStartsWith (s p : String) : Bool :=
  s.data.take p.data.length == p.data

/-- The URL test applied by the component, from the conditions at
part_001 lines 444 and 548: `result.video_url && result.video_url.trim()
&& result.video_url.startsWith('http')` under JS truthiness (undefined
and the empty string are falsy). -/
def validVideoUrl : Option String → Bool
  | none => false
  | some u => u ≠ "" && jsTrim u ≠ "" && jsStartsWith u "http"

/-- A response is treated as ready (terminal success) iff its status is
"success" and its video_url passes validVideoUrl (part_001 lines 444,
548). -/
def isReadySuccess (r : AnalysisResponse) : Bool :=
  r.status == "success" && validVideoUrl r.video_url

/-- Modelled from the spec: the validity rule of section 4.2, which the
claims state the code implements. A result URL is valid only if, after
trimming whitespace, it is non-empty and begins with http:// or
https://. Kept separate so it can be compared with the codes check. -/
def specValidUrl : Option String → Bool
  | none => false
  | some u =>
    jsTrim u ≠ "" && (jsStartsWith (jsTrim u) "http://" || jsStartsWith (jsTrim u) "https://")

/-- Minimal JSON value shape for the request payloads the component
serializes. -/
inductive JVal where
  | s (v : String)
  | b (v : Bool)
  | n (v : Nat)
  | null
deriving DecidableEq

/-- JS serialization of a possibly-null string binding. -/
def jOpt : Option String → JVal
  | none => JVal.null
  | some v => JVal.s v

/-- The submission payload object literal built inside makeRequest
(part_001 lines 495-502), in source field order: image, filename,
mimeType, timestamp, trigger_workflow (always true), attempt. -/
def submissionPayload (image filename mimeType timestamp : String) (attempt : Nat) :
    List (String × JVal) :=
  [("image", JVal.s image), ("filename", JVal.s filename),
   ("mimeType", JVal.s mimeType), ("timestamp", JVal.s timestamp),
   ("trigger_workflow", JVal.b true), ("attempt", JVal.n attempt)]

/-- The poll payload object literal built inside the interval callback
(part_001 lines 427-431). The request_id field serializes the requestId
BINDING captured by the startPollingForVideo closure at the render that
created it, which is why it takes a Captured-style value rather than the
live store. -/
def pollPayload (capturedRequestId : Option String) (timestamp : String) :
    List (String × JVal) :=
  [("check_status", JVal.b true), ("request_id", jOpt capturedRequestId),
   ("timestamp", JVal.s timestamp)]

/-- Result of one run of the makeRequest retry wrapper: the final
outcome (ok body, or the error rethrown after the attempt budget),
the attempt numbers tried in order, the backoff delays awaited between
attempts (ms), and the payloads sent, one per attempt. -/
structure SubmitRun where
  result : Except Unit AnalysisResponse
  tried : List Nat
  delays : List Nat
  sent : List (List (String × JVal))

/-- The makeRequest retry wrapper (part_001 lines 490-543). Each call
builds a fresh payload (timestamp refreshed via ts, attempt counter
included), performs one fetch; a thrown error (network failure or non-ok
response, both modelled by non-ok FetchOutcome) is retried while
attempt < 3 after a delay of 2 ^ attempt * 1000 ms; after the third
failure the error is rethrown. An ok response is returned without any
retry, whatever its status field says. -/
def makeRequest (img fn mt : String) (ts : Nat → String) (o : Nat → FetchOutcome)
    (attempt : Nat) : SubmitRun :=
  let payload := submissionPayload img fn mt (ts attempt) attempt
  match o attempt with
  | FetchOutcome.ok r => ⟨Except.ok r, [attempt], [], [payload]⟩
  | _ =>
    if h : attempt < 3 then
      let rest := makeRequest img fn mt ts o (attempt + 1)
      ⟨rest.result, attempt :: rest.tried, 2 ^ attempt * 1000 :: rest.delays,
        payload :: rest.sent⟩
    else ⟨Except.error (), [attempt], [], [payload]⟩
termination_by 3 - attempt
decreasing_by omega

/-- True for the outcomes the makeRequest wrapper retries: a rejected
fetch promise or a non-2xx response (both reach the catch block). -/
def isTransport : FetchOutcome → Bool
  | FetchOutcome.ok _ => false
  | _ => true

/-- getProgress (part_001 lines 388-395) with the elapsed whole seconds
(Math.floor of elapsed ms / 1000) as input: percentage of the 240 s
estimated total, capped at 95. -/
def getProgress (elapsed : Nat) : ℚ :=
  let totalEstimatedTime : Nat := 240
  min ((elapsed : ℚ) / (totalEstimatedTime : ℚ) * 100) 95

/-- getProcessingMessage (part_001 lines 373-385) with elapsed whole
seconds as input (the processingStartTime-null guard applies only before
Processing starts and is outside this function of elapsed time). -/
def getProcessingMessage (elapsed : Nat) : String :=
  if elapsed < 15 then "🔍 Cave spirits analyzing your essence..."
  else if elapsed < 90 then "🎨 Ancient artists crafting your caveman form..."
  else "🎬 Weaving time magic for your transformation..."

/-- getEstimatedTimeRemaining (part_001 lines 408-422) with elapsed
whole seconds as input. -/
def getEstimatedTimeRemaining (elapsed : Nat) : String :=
  if elapsed < 15 then "2-4 minutes remaining"
  else if elapsed < 90 then "1-3 minutes remaining"
  else if elapsed < 180 then "1-2 minutes remaining"
  else "Almost done..."

/-- Correspondence between the user-facing messages returned by
getProcessingMessage and the stage labels used by the design document
(analyzing, generating image, generating video). -/
def stageLabelOfMessage (m : String) : String :=
  if m = "🔍 Cave spirits analyzing your essence..." then "analyzing"
  else if m = "🎨 Ancient artists crafting your caveman form..." then "generating image"
  else "generating video"

/-- The polling interval length (part_001 line 462) and the deadline
(part_001 line 475), in milliseconds. -/
def pollIntervalMs : Nat := 5000

/-- Deadline after which the safety setTimeout fires (part_001 line
475). -/
def pollDeadlineMs : Nat := 360000

/-- JS setInterval semantics for the poll loop (part_001 lines 425-462):
invocation n of the callback starts pollIntervalMs * (n + 1) ms after
setInterval is called — the first one only after the interval, never
immediately — on a fixed schedule that does NOT wait for the async body
(the awaited fetch) of an earlier invocation to complete. -/
def pollTickTime (n : Nat) : Nat := pollIntervalMs * (n + 1)

/-- Probe n (the fetch begun by callback invocation n) is in flight at
time t when t lies between its start tick and its completion, where
latency n is the round-trip time of that fetch. -/
def probeInFlight (latency : Nat → Nat) (n t : Nat) : Bool :=
  pollTickTime n ≤ t && t < pollTickTime n + latency n

/-- The bindings a startPollingForVideo closure captured at the render
that created it (its useCallback dependencies, part_001 line 476). Both
the interval callback and the deadline callback read these bindings, not
the live store. -/
structure Captured where
  requestId : Option String
  isProcessing : Bool
deriving DecidableEq

/-- An active setInterval handle created by startPollingForVideo, with
the captures of the closure that created it. -/
structure IntervalTimer where
  id : Nat
  cap : Captured
deriving DecidableEq

/-- An active deadline setTimeout created by startPollingForVideo;
clears names the interval id its clearInterval call targets. -/
structure DeadlineTimer where
  id : Nat
  cap : Captured
  clears : Nat
deriving DecidableEq

/-- The component store: the useState cells the coordinator logic reads
and writes (part_001 lines 291-301; the cells concerning file selection,
drag state and the success-animation hide timer are outside the
coordinator claims, except showSuccessAnimation itself which the success
branches set). -/
structure Store where
  videoUrl : Option String
  isAnalyzing : Bool
  isProcessing : Bool
  requestId : Option String
  processingStartTime : Option Nat
  progress : ℚ
  showSuccessAnimation : Bool
deriving DecidableEq

/-- The world: store plus the live timers and the toast notifications
fired so far (toast titles, in order). -/
structure World where
  store : Store
  intervals : List IntervalTimer
  deadlines : List DeadlineTimer
  nextId : Nat
  toasts : List String
deriving DecidableEq

def initialStore : Store := ⟨none, false, false, none, none, 0, false⟩

def initialWorld : World := ⟨initialStore, [], [], 0, []⟩

def successToast : String := "🎉 Epic Transformation Complete! 🎉"

def workingToast : String := "Cave Magic Working!"

def angryToast : String := "Cave Spirits Angry!"

def failedToast : String := "Cave Magic Failed!"

def timeoutToast : String := "Cave Magic Taking Long!"

deriving instance DecidableEq for Except

/-- Asynchronous completions that drive the coordinator: the final
result of the makeRequest wrapper being handled by analyzeImage
(part_001 lines 545-590), a poll fetch completing and its handler
running (lines 441-461), the deadline setTimeout firing (lines 465-475),
and the one-second progress effect tick (lines 398-406). -/
inductive Event where
  | submitResult (r : Except Unit AnalysisResponse) (now : Nat)
  | probeResult (id : Nat) (o : FetchOutcome)
  | deadlineFires (id : Nat)
  | progressTick (elapsed : Nat)
deriving DecidableEq

/-- analyzeImage handling the awaited makeRequest result (part_001 lines
545-590). On a ready success: set videoUrl, stop processing, set
progress 100, show the animation, success toast (the 3 s animation-hide
setTimeout only toggles showSuccessAnimation back and is omitted). On a
bare success: start processing, record the start time, store the handle
if present, working toast, and call startPollingForVideo — whose closure
captured requestId and isProcessing at its creating render, i.e. their
store values BEFORE the setters of this branch ran. Any other status:
destructive toast. A thrown (post-retry) error: failure toast. The
finally block clears isAnalyzing on every path. -/
def handleSubmitResult (r : Except Unit AnalysisResponse) (now : Nat) (w : World) : World :=
  match r with
  | Except.error _ =>
    { w with
      store := { w.store with isAnalyzing := false }
      toasts := w.toasts ++ [failedToast] }
  | Except.ok res =>
    if isReadySuccess res then
      { w with
        store := { w.store with
          videoUrl := res.video_url
          isProcessing := false
          progress := 100
          showSuccessAnimation := true
          isAnalyzing := false }
        toasts := w.toasts ++ [successToast] }
    else if res.status == "success" then
      let cap : Captured := ⟨w.store.requestId, w.store.isProcessing⟩
      { w with
        store := { w.store with
          isProcessing := true
          processingStartTime := some now
          requestId := (match res.request_id with
            | some h => some h
            | none => w.store.requestId)
          isAnalyzing := false }
        intervals := w.intervals ++ [⟨w.nextId, cap⟩]
        deadlines := w.deadlines ++ [⟨w.nextId + 1, cap, w.nextId⟩]
        nextId := w.nextId + 2
        toasts := w.toasts ++ [workingToast] }
    else
      { w with
        store := { w.store with isAnalyzing := false }
        toasts := w.toasts ++ [angryToast] }

/-- The interval callback resuming after its awaited poll fetch
(part_001 lines 441-461). Only an ok response whose body passes
isReadySuccess does anything: set videoUrl, stop processing, progress
100, animation, clear its own interval, success toast. A non-ok
response is skipped; a rejected fetch is caught and only logged. The
handler performs no generation or staleness comparison, and it runs even
if the interval was cleared while the fetch was in flight (clearInterval
stops future ticks, not a resumed continuation). -/
def handlePollResult (id : Nat) (o : FetchOutcome) (w : World) : World :=
  match o with
  | FetchOutcome.ok res =>
    if isReadySuccess res then
      { w with
        store := { w.store with
          videoUrl := res.video_url
          isProcessing := false
          progress := 100
          showSuccessAnimation := true }
        intervals := w.intervals.filter (fun iv => iv.id != id)
        toasts := w.toasts ++ [successToast] }
    else w
  | _ => w

/-- The deadline setTimeout callback (part_001 lines 465-475): always
clears its poll interval, then consults the isProcessing BINDING the
closure captured at its creating render — not the live store — and only
if that stale value is true does it stop processing and fire the
timeout toast. Nothing in the code ever cancels this setTimeout, so it
fires exactly once whenever reached. -/
def handleDeadline (id : Nat) (w : World) : World :=
  match w.deadlines.find? (fun d => d.id == id) with
  | none => w
  | some d =>
    let w1 := { w with
      intervals := w.intervals.filter (fun iv => iv.id != d.clears)
      deadlines := w.deadlines.filter (fun x => x.id != id) }
    if d.cap.isProcessing then
      { w1 with
        store := { w1.store with isProcessing := false }
        toasts := w1.toasts ++ [timeoutToast] }
    else w1

/-- The one-second progress effect (part_001 lines 398-406): while
isProcessing with a start time set, it writes getProgress of the elapsed
seconds into the progress cell. -/
def handleProgressTick (elapsed : Nat) (w : World) : World :=
  if w.store.isProcessing && w.store.processingStartTime.isSome then
    { w with store := { w.store with progress := getProgress elapsed } }
  else w

/-- One asynchronous completion applied to the world. -/
def step (w : World) : Event → World
  | Event.submitResult r now => handleSubmitResult r now w
  | Event.probeResult id o => handlePollResult id o w
  | Event.deadlineFires id => handleDeadline id w
  | Event.progressTick e => handleProgressTick e w

/-- True of the events that confirm a validated success (the only
branches that write progress := 100). -/
def settlesSuccess : Event → Bool
  | Event.submitResult (Except.ok r) _ => isReadySuccess r
  | Event.probeResult _ (FetchOutcome.ok r) => isReadySuccess r
  | _ => false

/-- Ready classification of a raw fetch outcome. -/
def isReadyOutcome : FetchOutcome → Bool
  | FetchOutcome.ok r => isReadySuccess r
  | _ => false

/-- Accepted-without-result response for a first job, carrying the
handle job-A (the shape of part_001 line 560 with request_id present). -/
def acceptedA : AnalysisResponse := ⟨"success", none, none, some "job-A"⟩

/-- Accepted response for a second job submitted while the first one is
still processing. -/
def acceptedB : AnalysisResponse := ⟨"success", none, none, some "job-B"⟩

/-- A ready success response belonging to the first job, arriving on the
first jobs poll loop after the second job has superseded it. -/
def staleSuccess : AnalysisResponse := ⟨"success", some "https://cdn.example/a.mp4", none, none⟩

/-- World after the first submission is accepted: interval 0 and
deadline 1 are live, both having captured requestId = none and
isProcessing = false (the store values at the render that created the
running closures). -/
def worldAfterAcceptA : World := step initialWorld (Event.submitResult (Except.ok acceptedA) 0)

/-- World after a second submission is accepted at 60 s while the first
job is still Processing: the first jobs interval is still live (nothing
stopped it), and the new closures captured requestId = some job-A and
isProcessing = true. -/
def worldAfterAcceptB : World :=
  step worldAfterAcceptA (Event.submitResult (Except.ok acceptedB) 60000)

/-- A success response whose URL the spec rule of section 4.2 rejects
(no http:// or https:// start after trimming) but which the code
classifies as ready. -/
def placeholderResp : AnalysisResponse := ⟨"success", some "httpplaceholder", none, none⟩

/-- A probe response whose status reports an application-level failure. -/
def probeRejected : AnalysisResponse := ⟨"error", none, some "pipeline failed", none⟩

/-- The estimator never reports more than 95 percent. -/
theorem getProgress_le95 (e : Nat) : getProgress e ≤ 95 := by
  simp [getProgress]

/-- C1 counterexample: after a second submission is accepted while the
first job is Processing, the first jobs interval is still live, and its
probe resolving with a valid success mutates the store (videoUrl set,
processing stopped) and fires the completion toast — no generation
comparison discards it. -/
theorem stale_probe_mutates_state :
    worldAfterAcceptB.intervals.length = 2
    ∧ worldAfterAcceptB.store.requestId = some "job-B"
    ∧ worldAfterAcceptB.store.isProcessing = true
    ∧ (step worldAfterAcceptB (Event.probeResult 0 (FetchOutcome.ok staleSuccess))).store.videoUrl
        = some "https://cdn.example/a.mp4"
    ∧ (step worldAfterAcceptB
        (Event.probeResult 0 (FetchOutcome.ok staleSuccess))).store.isProcessing = false
    ∧ (step worldAfterAcceptB (Event.probeResult 0 (FetchOutcome.ok staleSuccess))).toasts
        = worldAfterAcceptB.toasts ++ [successToast] := by
  decide

/-- C1 amended: no asynchronous callback compares a captured generation
against a current one (no generation exists in the component); a probe
callback — stale or not — with a non-ready outcome changes nothing,
while one with a valid success always mutates the store and fires the
completion toast, however many submissions have superseded it. -/
theorem probe_callbacks_have_no_generation_guard :
    ∀ (w : World) (id : Nat) (o : FetchOutcome) (r : AnalysisResponse),
    (isReadyOutcome o = false → step w (Event.probeResult id o) = w)
    ∧ (isReadySuccess r = true →
        (step w (Event.probeResult id (FetchOutcome.ok r))).store.videoUrl = r.video_url
        ∧ (step w (Event.probeResult id (FetchOutcome.ok r))).store.isProcessing = false
        ∧ (step w (Event.probeResult id (FetchOutcome.ok r))).store.progress = 100
        ∧ (step w (Event.probeResult id (FetchOutcome.ok r))).toasts
            = w.toasts ++ [successToast]) := by
  intro w id o r
  constructor
  · intro ho
    cases o with
    | ok res =>
      simp [isReadyOutcome] at ho
      simp [step, handlePollResult, ho]
    | netFail => simp [step, handlePollResult]
    | httpFail s => simp [step, handlePollResult]
  · intro hr
    simp [step, handlePollResult, hr]

/-- C1 witness: the amended statement applied to the superseded-job
world of the counterexample. -/
theorem probe_callbacks_have_no_generation_guard_w :
    step worldAfterAcceptB (Event.probeResult 0 FetchOutcome.netFail) = worldAfterAcceptB
    ∧ (step worldAfterAcceptB
        (Event.probeResult 0 (FetchOutcome.ok staleSuccess))).store.isProcessing = false :=
  ⟨(probe_callbacks_have_no_generation_guard worldAfterAcceptB 0 FetchOutcome.netFail
      staleSuccess).1 (by decide),
   ((probe_callbacks_have_no_generation_guard worldAfterAcceptB 0 FetchOutcome.netFail
      staleSuccess).2 (by decide)).2.1⟩

/-- C2 counterexample: the response with video_url httpplaceholder fails
the spec rule (no http:// or https:// start) yet the code classifies it
ready, sets videoUrl and fires the success toast — the Succeeded
outcome is produced. -/
theorem loose_url_check_reaches_ready :
    specValidUrl placeholderResp.video_url = false
    ∧ isReadySuccess placeholderResp = true
    ∧ (step worldAfterAcceptA
        (Event.probeResult 0 (FetchOutcome.ok placeholderResp))).store.videoUrl
        = some "httpplaceholder"
    ∧ (step worldAfterAcceptA (Event.probeResult 0 (FetchOutcome.ok placeholderResp))).toasts
        = worldAfterAcceptA.toasts ++ [successToast] := by
  decide

/-- C2 amended: a success response is classified ready iff its
video_url is present, non-empty, has a non-empty trim, and the RAW
string starts with the four characters http (not: the trimmed string
starts with http:// or https://). The examples the spec lists (blank,
whitespace only, ftp://bad) are indeed not ready, and a not-ready
response leaves the world untouched. -/
theorem ready_classification_characterization :
    ∀ (r : AnalysisResponse) (w : World) (id : Nat),
    (isReadySuccess r = true ↔
      (r.status = "success" ∧ ∃ u, r.video_url = some u ∧ u ≠ ""
        ∧ jsTrim u ≠ "" ∧ jsStartsWith u "http" = true))
    ∧ validVideoUrl (some "") = false
    ∧ validVideoUrl (some "   ") = false
    ∧ validVideoUrl (some "ftp://bad") = false
    ∧ (isReadySuccess r = false → step w (Event.probeResult id (FetchOutcome.ok r)) = w) := by
  intro r w id
  refine ⟨?_, by decide, by decide, by decide, ?_⟩
  · constructor
    · intro h
      simp [isReadySuccess, validVideoUrl] at h
      obtain ⟨hs, hv⟩ := h
      cases hu : r.video_url with
      | none => rw [hu] at hv; simp at hv
      | some u =>
        rw [hu] at hv
        simp at hv
        exact ⟨hs, u, rfl, hv.1.1, hv.1.2, hv.2⟩
    · rintro ⟨hs, u, hu, h1, h2, h3⟩
      simp [isReadySuccess, validVideoUrl, hs, hu, h1, h2, h3]
  · intro h
    simp [step, handlePollResult, h]

/-- C2 witness: the characterization applied to the ftp://bad probe of
the spec, which leaves the Processing world unchanged. -/
theorem ready_classification_characterization_w :
    isReadySuccess ⟨"success", some "ftp://bad", none, none⟩ = false
    ∧ step worldAfterAcceptA
        (Event.probeResult 0 (FetchOutcome.ok ⟨"success", some "ftp://bad", none, none⟩))
        = worldAfterAcceptA :=
  ⟨by decide,
   (ready_classification_characterization ⟨"success", some "ftp://bad", none, none⟩
      worldAfterAcceptA 0).2.2.2.2 (by decide)⟩

/-- C3: evaluation at the failing trace. The deadline callback clears
the interval (no further probes), but its isProcessing guard reads the
value captured at the render that created the closure — false — so
isProcessing stays true, no TimedOut transition happens and no timeout
toast fires. Moreover the deadline setTimeout is never cancelled: after
a ready probe has stopped the loop, the deadline timer is still pending
and will still fire. -/
theorem stale_deadline_guard_blocks_timeout_transition :
    pollDeadlineMs = 360000
    ∧ worldAfterAcceptA.store.isProcessing = true
    ∧ (step worldAfterAcceptA (Event.deadlineFires 1)).store.isProcessing = true
    ∧ (step worldAfterAcceptA (Event.deadlineFires 1)).intervals = []
    ∧ (step worldAfterAcceptA (Event.deadlineFires 1)).toasts = worldAfterAcceptA.toasts
    ∧ (step worldAfterAcceptA (Event.probeResult 0 (FetchOutcome.ok staleSuccess))).deadlines
        = worldAfterAcceptA.deadlines := by
  decide

/-- C4 counterexample: with a 7000 ms fetch round-trip, probe 0 (begun
at the 5000 ms tick) is still in flight at 10000 ms when probe 1 begins
— two in-flight probes overlap, because setInterval ticks on a fixed
schedule instead of waiting for the previous probe to complete. -/
theorem probes_overlap_under_slow_fetch :
    probeInFlight (fun _ => 7000) 0 10000 = true
    ∧ probeInFlight (fun _ => 7000) 1 10000 = true
    ∧ pollTickTime 0 = 5000
    ∧ pollTickTime 1 = 10000 := by
  decide

/-- C4 amended: the first probe is only sent after the 5000 ms interval
elapses (never immediately), but ticks recur every 5000 ms from the
start of the interval regardless of the previous probe completing;
consecutive probes overlap exactly when the earlier probes latency
exceeds the 5000 ms interval. -/
theorem poll_schedule_first_tick_and_overlap :
    ∀ (lat : Nat → Nat) (n t : Nat),
    pollTickTime n = 5000 * (n + 1)
    ∧ (probeInFlight lat n t = true → 5000 ≤ t)
    ∧ (0 < lat (n + 1) →
        ((∃ u, probeInFlight lat n u = true ∧ probeInFlight lat (n + 1) u = true)
          ↔ 5000 < lat n)) := by
  intro lat n t
  refine ⟨by simp [pollTickTime, pollIntervalMs, Nat.mul_comm], ?_, ?_⟩
  · intro h
    simp [probeInFlight, pollTickTime, pollIntervalMs] at h
    omega
  · intro hl
    constructor
    · rintro ⟨u, h1, h2⟩
      simp [probeInFlight, pollTickTime, pollIntervalMs] at h1 h2
      omega
    · intro h
      refine ⟨pollTickTime (n + 1), ?_, ?_⟩
      · simp [probeInFlight, pollTickTime, pollIntervalMs]
        omega
      · simp [probeInFlight, pollTickTime, pollIntervalMs]
        omega

/-- C4 witness: the amended statement applied at the 7000 ms latency of
the counterexample. -/
theorem poll_schedule_first_tick_and_overlap_w :
    pollTickTime 2 = 5000 * 3
    ∧ 5000 ≤ 16000
    ∧ ((∃ u, probeInFlight (fun _ => 7000) 2 u = true
          ∧ probeInFlight (fun _ => 7000) 3 u = true)
        ↔ 5000 < 7000) :=
  ⟨(poll_schedule_first_tick_and_overlap (fun _ => 7000) 2 16000).1,
   (poll_schedule_first_tick_and_overlap (fun _ => 7000) 2 16000).2.1 (by decide),
   (poll_schedule_first_tick_and_overlap (fun _ => 7000) 2 16000).2.2 (by decide)⟩

/-- C5: the submission wrapper retries only transport failures (any ok
response, whatever its status, is returned after a single attempt with
no delay), makes at most 3 attempts with backoff delays of exactly
2000 ms then 4000 ms, and after a third consecutive transport failure
rethrows with no fourth attempt. -/
theorem makeRequest_retry_policy :
    ∀ (img fn mt : String) (ts : Nat → String) (o : Nat → FetchOutcome) (r : AnalysisResponse),
    (isTransport (o 1) = true → isTransport (o 2) = true → isTransport (o 3) = true →
      makeRequest img fn mt ts o 1 =
        ⟨Except.error (), [1, 2, 3], [2000, 4000],
         [submissionPayload img fn mt (ts 1) 1, submissionPayload img fn mt (ts 2) 2,
          submissionPayload img fn mt (ts 3) 3]⟩)
    ∧ (o 1 = FetchOutcome.ok r →
      makeRequest img fn mt ts o 1 =
        ⟨Except.ok r, [1], [], [submissionPayload img fn mt (ts 1) 1]⟩)
    ∧ (isTransport (o 1) = true → o 2 = FetchOutcome.ok r →
      makeRequest img fn mt ts o 1 =
        ⟨Except.ok r, [1, 2], [2000],
         [submissionPayload img fn mt (ts 1) 1, submissionPayload img fn mt (ts 2) 2]⟩) := by
  intro img fn mt ts o r
  refine ⟨?_, ?_, ?_⟩
  · intro h1 h2 h3
    cases e1 : o 1 <;> rw [e1] at h1 <;> try simp [isTransport] at h1
    all_goals cases e2 : o 2 <;> rw [e2] at h2 <;> try simp [isTransport] at h2
    all_goals cases e3 : o 3 <;> rw [e3] at h3 <;> try simp [isTransport] at h3
    all_goals simp [makeRequest, e1, e2, e3]
  · intro h1
    simp [makeRequest, h1]
  · intro h1 h2
    cases e1 : o 1 <;> rw [e1] at h1 <;> try simp [isTransport] at h1
    all_goals simp [makeRequest, e1, h2]

/-- C5 witness: three network failures in a row produce the error after
attempts 1, 2, 3 with delays 2000 and 4000 ms. -/
theorem makeRequest_retry_policy_w :
    isTransport FetchOutcome.netFail = true
    ∧ makeRequest "i" "f.png" "image/png" (fun _ => "T") (fun _ => FetchOutcome.netFail) 1 =
        ⟨Except.error (), [1, 2, 3], [2000, 4000],
         [submissionPayload "i" "f.png" "image/png" "T" 1,
          submissionPayload "i" "f.png" "image/png" "T" 2,
          submissionPayload "i" "f.png" "image/png" "T" 3]⟩ :=
  ⟨rfl,
   (makeRequest_retry_policy "i" "f.png" "image/png" (fun _ => "T")
      (fun _ => FetchOutcome.netFail) ⟨"", none, none, none⟩).1 rfl rfl rfl⟩

/-- C6: evaluation at the failing input. The accepted response carries
request_id job-A; the handle IS stored before polling starts, but the
interval closure captured the requestId binding of the render that
created it — none — so every probe body of this loop serializes
request_id as null, not as the stored handle. -/
theorem probe_payload_sends_stale_request_id :
    worldAfterAcceptA.store.requestId = some "job-A"
    ∧ worldAfterAcceptA.intervals.map (fun iv => iv.cap.requestId) = [none]
    ∧ pollPayload none "2025-01-01T00:00:05.000Z"
        = [("check_status", JVal.b true), ("request_id", JVal.null),
           ("timestamp", JVal.s "2025-01-01T00:00:05.000Z")]
    ∧ JVal.null ≠ jOpt worldAfterAcceptA.store.requestId := by
  decide

/-- C7 counterexample: the submission body does not consist of exactly
the fields image, filename, mimeType, timestamp, attempt — it also
carries trigger_workflow. -/
theorem submission_payload_extra_field :
    (submissionPayload "aW1n" "me.png" "image/png" "2025-01-01T00:00:00.000Z" 1).map Prod.fst
      ≠ ["image", "filename", "mimeType", "timestamp", "attempt"] := by
  decide

/-- C7 amended: every submission request body consists of exactly the
fields image, filename, mimeType, timestamp, trigger_workflow and
attempt; the attempt numbers of a run start at 1 and are incremented by
one per retry (never beyond 3), and the payload of attempt a carries
attempt value a and the timestamp taken at attempt a. -/
theorem submission_payload_field_structure :
    ∀ (img fn mt : String) (ts : Nat → String) (o : Nat → FetchOutcome),
    (makeRequest img fn mt ts o 1).sent
      = (makeRequest img fn mt ts o 1).tried.map (fun a => submissionPayload img fn mt (ts a) a)
    ∧ ((makeRequest img fn mt ts o 1).tried = [1]
        ∨ (makeRequest img fn mt ts o 1).tried = [1, 2]
        ∨ (makeRequest img fn mt ts o 1).tried = [1, 2, 3])
    ∧ (∀ p ∈ (makeRequest img fn mt ts o 1).sent,
        p.map Prod.fst
          = ["image", "filename", "mimeType", "timestamp", "trigger_workflow", "attempt"]) := by
  intro img fn mt ts o
  cases e1 : o 1 with
  | ok r => simp [makeRequest, e1, submissionPayload]
  | netFail =>
    cases e2 : o 2 with
    | ok r => simp [makeRequest, e1, e2, submissionPayload]
    | netFail => cases e3 : o 3 <;> simp [makeRequest, e1, e2, e3, submissionPayload]
    | httpFail s => cases e3 : o 3 <;> simp [makeRequest, e1, e2, e3, submissionPayload]
  | httpFail s1 =>
    cases e2 : o 2 with
    | ok r => simp [makeRequest, e1, e2, submissionPayload]
    | netFail => cases e3 : o 3 <;> simp [makeRequest, e1, e2, e3, submissionPayload]
    | httpFail s => cases e3 : o 3 <;> simp [makeRequest, e1, e2, e3, submissionPayload]

/-- C7 witness: the field structure applied to a run of three network
failures, naming the first payload sent. -/
theorem submission_payload_field_structure_w :
    (submissionPayload "i" "f.png" "image/png" "T" 1).map Prod.fst
      = ["image", "filename", "mimeType", "timestamp", "trigger_workflow", "attempt"]
    ∧ ((makeRequest "i" "f.png" "image/png" (fun _ => "T") (fun _ => FetchOutcome.netFail) 1).tried
          = [1]
        ∨ (makeRequest "i" "f.png" "image/png" (fun _ => "T")
            (fun _ => FetchOutcome.netFail) 1).tried = [1, 2]
        ∨ (makeRequest "i" "f.png" "image/png" (fun _ => "T")
            (fun _ => FetchOutcome.netFail) 1).tried = [1, 2, 3]) :=
  ⟨(submission_payload_field_structure "i" "f.png" "image/png" (fun _ => "T")
      (fun _ => FetchOutcome.netFail)).2.2
      (submissionPayload "i" "f.png" "image/png" "T" 1)
      (by simp [makeRequest, submissionPayload]),
   (submission_payload_field_structure "i" "f.png" "image/png" (fun _ => "T")
      (fun _ => FetchOutcome.netFail)).2.1⟩

/-- C8: the estimator percentage is min(elapsed / 240 * 100, 95); it is
non-decreasing in elapsed time, never exceeds 95 (hence never reaches
100) on its own, progress becomes 100 only through an event confirming
a validated success, and on such an event the tracker overrides it to
exactly 100. -/
theorem progress_percentage_properties :
    ∀ (e f : Nat) (w : World) (ev : Event) (id now : Nat) (r : AnalysisResponse),
    getProgress e = min ((e : ℚ) / 240 * 100) 95
    ∧ (e ≤ f → getProgress e ≤ getProgress f)
    ∧ getProgress e ≤ 95
    ∧ getProgress e < 100
    ∧ ((step w ev).store.progress = 100 → w.store.progress = 100 ∨ settlesSuccess ev = true)
    ∧ (isReadySuccess r = true →
        (step w (Event.submitResult (Except.ok r) now)).store.progress = 100
        ∧ (step w (Event.probeResult id (FetchOutcome.ok r))).store.progress = 100) := by
  intro e f w ev id now r
  refine ⟨by simp [getProgress], ?_, getProgress_le95 e, ?_, ?_, ?_⟩
  · intro h
    have he : (e : ℚ) ≤ (f : ℚ) := by exact_mod_cast h
    simp only [getProgress]
    apply min_le_min _ le_rfl
    gcongr
  · calc getProgress e ≤ 95 := getProgress_le95 e
      _ < 100 := by norm_num
  · intro h
    cases ev with
    | submitResult rr nw =>
      cases rr with
      | error u =>
        left
        simpa [step, handleSubmitResult] using h
      | ok res =>
        by_cases hr : isReadySuccess res
        · right
          simp [settlesSuccess, hr]
        · by_cases hs : res.status == "success"
          · left
            simp [step, handleSubmitResult, hr, hs] at h
            exact h
          · left
            simp [step, handleSubmitResult, hr, hs] at h
            exact h
    | probeResult pid o =>
      cases o with
      | ok res =>
        by_cases hr : isReadySuccess res
        · right
          simp [settlesSuccess, hr]
        · left
          simpa [step, handlePollResult, hr] using h
      | netFail =>
        left
        simpa [step, handlePollResult] using h
      | httpFail s =>
        left
        simpa [step, handlePollResult] using h
    | deadlineFires did =>
      left
      cases hf : w.deadlines.find? (fun d => d.id == did) with
      | none =>
        simpa [step, handleDeadline, hf] using h
      | some d =>
        by_cases hp : d.cap.isProcessing
        · simp [step, handleDeadline, hf, hp] at h
          exact h
        · simp [step, handleDeadline, hf, hp] at h
          exact h
    | progressTick el =>
      by_cases hg : w.store.isProcessing && w.store.processingStartTime.isSome
      · exfalso
        simp [step, handleProgressTick, hg] at h
        have := getProgress_le95 el
        rw [h] at this
        norm_num at this
      · left
        simpa [step, handleProgressTick, hg] using h
  · intro hr
    constructor
    · simp [step, handleSubmitResult, hr]
    · simp [step, handlePollResult, hr]

/-- C8 witness: monotonicity between 30 s and 60 s, the cap, and the
override at the valid success of the stale-probe trace. -/
theorem progress_percentage_properties_w :
    getProgress 30 ≤ getProgress 60
    ∧ getProgress 30 ≤ 95
    ∧ (step worldAfterAcceptA
        (Event.probeResult 0 (FetchOutcome.ok staleSuccess))).store.progress = 100 :=
  ⟨(progress_percentage_properties 30 60 worldAfterAcceptA (Event.progressTick 0) 0 0
      staleSuccess).2.1 (by decide),
   (progress_percentage_properties 30 60 worldAfterAcceptA (Event.progressTick 0) 0 0
      staleSuccess).2.2.1,
   ((progress_percentage_properties 30 60 worldAfterAcceptA (Event.progressTick 0) 0 0
      staleSuccess).2.2.2.2.2 (by decide)).2⟩

/-- C9: the stage label of the processing message and the ETA text
follow the breakpoint table with inclusive lower bounds — analyzing
with 2-4 minutes on [0, 15), generating image with 1-3 minutes on
[15, 90), generating video with 1-2 minutes on [90, 180) and with
Almost done on [180, infinity) — and on [0, 15) the percentage stays
below 6.25. -/
theorem stage_label_and_eta_breakpoints :
    ∀ e : Nat,
    (e < 15 → stageLabelOfMessage (getProcessingMessage e) = "analyzing"
      ∧ getEstimatedTimeRemaining e = "2-4 minutes remaining"
      ∧ getProgress e < 25 / 4)
    ∧ (15 ≤ e → e < 90 → stageLabelOfMessage (getProcessingMessage e) = "generating image"
      ∧ getEstimatedTimeRemaining e = "1-3 minutes remaining")
    ∧ (90 ≤ e → e < 180 → stageLabelOfMessage (getProcessingMessage e) = "generating video"
      ∧ getEstimatedTimeRemaining e = "1-2 minutes remaining")
    ∧ (180 ≤ e → stageLabelOfMessage (getProcessingMessage e) = "generating video"
      ∧ getEstimatedTimeRemaining e = "Almost done...") := by
  intro e
  refine ⟨?_, ?_, ?_, ?_⟩
  · intro h
    have hm : getProcessingMessage e = "🔍 Cave spirits analyzing your essence..." := by
      simp [getProcessingMessage, h]
    have he : (e : ℚ) ≤ 14 := by
      have : e ≤ 14 := by omega
      exact_mod_cast this
    refine ⟨by rw [hm]; decide, by simp [getEstimatedTimeRemaining, h], ?_⟩
    calc getProgress e ≤ (e : ℚ) / 240 * 100 := min_le_left _ _
      _ ≤ 14 / 240 * 100 := by gcongr
      _ < 25 / 4 := by norm_num
  · intro h1 h2
    have hm : getProcessingMessage e = "🎨 Ancient artists crafting your caveman form..." := by
      simp [getProcessingMessage, h2, show ¬e < 15 by omega]
    exact ⟨by rw [hm]; decide,
      by simp [getEstimatedTimeRemaining, h2, show ¬e < 15 by omega]⟩
  · intro h1 h2
    have hm : getProcessingMessage e = "🎬 Weaving time magic for your transformation..." := by
      simp [getProcessingMessage, show ¬e < 15 by omega, show ¬e < 90 by omega]
    exact ⟨by rw [hm]; decide,
      by simp [getEstimatedTimeRemaining, h2, show ¬e < 15 by omega, show ¬e < 90 by omega]⟩
  · intro h1
    have hm : getProcessingMessage e = "🎬 Weaving time magic for your transformation..." := by
      simp [getProcessingMessage, show ¬e < 15 by omega, show ¬e < 90 by omega]
    exact ⟨by rw [hm]; decide,
      by simp [getEstimatedTimeRemaining, show ¬e < 15 by omega, show ¬e < 90 by omega,
        show ¬e < 180 by omega]⟩

/-- C9 witness: one elapsed value in each band. -/
theorem stage_label_and_eta_breakpoints_w :
    (stageLabelOfMessage (getProcessingMessage 10) = "analyzing"
      ∧ getEstimatedTimeRemaining 10 = "2-4 minutes remaining"
      ∧ getProgress 10 < 25 / 4)
    ∧ (stageLabelOfMessage (getProcessingMessage 40) = "generating image"
      ∧ getEstimatedTimeRemaining 40 = "1-3 minutes remaining")
    ∧ (stageLabelOfMessage (getProcessingMessage 120) = "generating video"
      ∧ getEstimatedTimeRemaining 120 = "1-2 minutes remaining")
    ∧ (stageLabelOfMessage (getProcessingMessage 200) = "generating video"
      ∧ getEstimatedTimeRemaining 200 = "Almost done...") :=
  ⟨(stage_label_and_eta_breakpoints 10).1 (by decide),
   (stage_label_and_eta_breakpoints 40).2.1 (by decide) (by decide),
   (stage_label_and_eta_breakpoints 120).2.2.1 (by decide) (by decide),
   (stage_label_and_eta_breakpoints 200).2.2.2 (by decide)⟩

/-- C10: any probe outcome other than an ok response with a ready
success body — non-2xx responses, thrown network errors, ok responses
with a non-success or success-without-valid-URL body — leaves the world
entirely unchanged and does not stop the loop; and an interval can only
disappear through a ready-success probe of its own id or through the
deadline timer that targets it. -/
theorem nonready_probe_inert_and_loop_exit_paths :
    ∀ (w : World) (e : Event) (iv : IntervalTimer),
    (∀ (id : Nat) (o : FetchOutcome), isReadyOutcome o = false →
        step w (Event.probeResult id o) = w)
    ∧ (iv ∈ w.intervals → iv ∉ (step w e).intervals →
        (∃ r : AnalysisResponse,
            e = Event.probeResult iv.id (FetchOutcome.ok r) ∧ isReadySuccess r = true)
        ∨ (∃ d ∈ w.deadlines, e = Event.deadlineFires d.id ∧ d.clears = iv.id)) := by
  intro w e iv
  constructor
  · intro id o ho
    cases o with
    | ok res =>
      simp [isReadyOutcome] at ho
      simp [step, handlePollResult, ho]
    | netFail => simp [step, handlePollResult]
    | httpFail s => simp [step, handlePollResult]
  · intro hmem hnot
    cases e with
    | submitResult r now =>
      exfalso
      apply hnot
      cases r with
      | error u => simpa [step, handleSubmitResult] using hmem
      | ok res =>
        by_cases hr : isReadySuccess res
        · simpa [step, handleSubmitResult, hr] using hmem
        · by_cases hs : res.status == "success"
          · simp [step, handleSubmitResult, hr, hs]
            exact Or.inl hmem
          · simpa [step, handleSubmitResult, hr, hs] using hmem
    | probeResult id o =>
      cases o with
      | ok res =>
        by_cases hr : isReadySuccess res
        · left
          refine ⟨res, ?_, hr⟩
          simp [step, handlePollResult, hr, List.mem_filter] at hnot
          have := hnot hmem
          simp [this]
        · exfalso
          exact hnot (by simpa [step, handlePollResult, hr] using hmem)
      | netFail => exact absurd (by simpa [step, handlePollResult] using hmem) hnot
      | httpFail s => exact absurd (by simpa [step, handlePollResult] using hmem) hnot
    | deadlineFires id =>
      right
      cases hf : w.deadlines.find? (fun d => d.id == id) with
      | none => exact absurd (by simpa [step, handleDeadline, hf] using hmem) hnot
      | some d =>
        refine ⟨d, List.mem_of_find?_eq_some hf, ?_, ?_⟩
        · have : d.id = id := by
            have := List.find?_some hf
            simpa using this
          rw [this]
        · by_cases hp : d.cap.isProcessing
          · simp [step, handleDeadline, hf, hp, List.mem_filter] at hnot
            have := hnot hmem
            omega
          · simp [step, handleDeadline, hf, hp, List.mem_filter] at hnot
            have := hnot hmem
            omega
    | progressTick el =>
      refine absurd ?_ hnot
      by_cases hg : w.store.isProcessing && w.store.processingStartTime.isSome
      · simpa [step, handleProgressTick, hg] using hmem
      · simpa [step, handleProgressTick, hg] using hmem

/-- C10 witness: an application-level failure probe leaves the
Processing world unchanged, and the interval removed by the deadline
firing in the timeout trace is accounted for by that deadline. -/
theorem nonready_probe_inert_and_loop_exit_paths_w :
    step worldAfterAcceptA (Event.probeResult 0 (FetchOutcome.ok probeRejected))
      = worldAfterAcceptA
    ∧ ((∃ r : AnalysisResponse,
          Event.deadlineFires 1 = Event.probeResult 0 (FetchOutcome.ok r)
          ∧ isReadySuccess r = true)
        ∨ (∃ d ∈ worldAfterAcceptA.deadlines,
            Event.deadlineFires 1 = Event.deadlineFires d.id ∧ d.clears = 0)) :=
  ⟨(nonready_probe_inert_and_loop_exit_paths worldAfterAcceptA (Event.deadlineFires 1)
      ⟨0, ⟨none, false⟩⟩).1 0 (FetchOutcome.ok probeRejected) (by decide),
   (nonready_probe_inert_and_loop_exit_paths worldAfterAcceptA (Event.deadlineFires 1)
      ⟨0, ⟨none, false⟩⟩).2 (by decide) (by decide)⟩
